import Mathlib

/-!
Shallow embedding of `notebooks/hfdemo/patch_tst_getting_started.ipynb`
(granite-tsfm demo notebook).  The notebook is a straight-line program:
it sets constants, seeds the PRNGs, loads a CSV, slices it into
train/validation/test, fits a `TimeSeriesPreprocessor` on the training
slice, builds three `ForecastDFDataset`s, evaluates a pretrained
`PatchTSTForPrediction`, then builds one from scratch, trains, evaluates
and inspects the prediction shape.  We embed the notebook's constants and
its cell-by-cell sequence of library calls (with the arguments the claims
depend on) and prove the claims over that trace and over the outputs the
notebook records.
-/

namespace PatchTSTDemo

/-! ### Parameter cells of the notebook -/

def dataset : String := "ETTh1"
def num_workers : Nat := 8
def batch_size : Nat := 32
def context_length : Nat := 512
def forecast_horizon : Nat := 96
def patch_length : Nat := 12

def dataset_path : String :=
  "https://raw.githubusercontent.com/zhouhaoyi/ETDataset/main/ETT-small/" ++ dataset ++ ".csv"
def timestamp_column : String := "date"
def id_columns : List String := []
def forecast_columns : List String :=
  ["HUFL", "HULL", "MUFL", "MULL", "LUFL", "LULL", "OT"]

/-- `train_start_index = None` in the notebook: `None` indicates the
beginning of the dataset. -/
def train_start_index : Option Nat := none
def train_end_index : Nat := 12 * 30 * 24
def valid_start_index : Nat := 12 * 30 * 24 - context_length
def valid_end_index : Nat := 12 * 30 * 24 + 4 * 30 * 24
def test_start_index : Nat := 12 * 30 * 24 + 4 * 30 * 24 - context_length
def test_end_index : Nat := 12 * 30 * 24 + 8 * 30 * 24

/-- In the from-scratch `PatchTSTConfig` the notebook passes
`patch_stride=patch_length`. -/
def patch_stride : Nat := patch_length

/-! ### The three data slices, as index sets

`select_by_index` lives in `tsfm_public.toolkit.util`, outside the files
represented here; the notebook's markdown documents its contract. -/

/-- Modelled from the spec: `select_by_index` (from `tsfm_public.toolkit.util`,
not present under the represented sources) returns the rows of the loaded
data whose positions lie in `[start_index, end_index)`, where a start of
`None` means the beginning of the data.  Membership of row `i` in the
training slice. -/
def InTrainSlice (i : Nat) : Prop :=
  train_start_index.getD 0 ≤ i ∧ i < train_end_index

/-- Membership of row `i` in the validation slice `[valid_start_index, valid_end_index)`. -/
def InValidSlice (i : Nat) : Prop :=
  valid_start_index ≤ i ∧ i < valid_end_index

/-- Membership of row `i` in the test slice `[test_start_index, test_end_index)`. -/
def InTestSlice (i : Nat) : Prop :=
  test_start_index ≤ i ∧ i < test_end_index

instance (i : Nat) : Decidable (InTrainSlice i) :=
  inferInstanceAs (Decidable (And _ _))

instance (i : Nat) : Decidable (InValidSlice i) :=
  inferInstanceAs (Decidable (And _ _))

instance (i : Nat) : Decidable (InTestSlice i) :=
  inferInstanceAs (Decidable (And _ _))

/-! ### The notebook's program trace

Each constructor records one library call of the notebook, with the
arguments the claims are about. -/

/-- Which of the three slices a dataframe variable holds. -/
inductive Split
  | train
  | valid
  | test
deriving DecidableEq

/-- A dataframe-valued expression appearing as an argument in the notebook:
either a raw slice (`train_data`, `valid_data`, `test_data`, as produced by
`select_by_index`) or that slice passed through `tsp.preprocess`. -/
inductive DataExpr
  | raw : Split → DataExpr
  | preprocessed : Split → DataExpr
deriving DecidableEq

/-- The keyword arguments of one `ForecastDFDataset(...)` construction. -/
structure ForecastDFDatasetArgs where
  input : DataExpr
  id_columns : List String
  target_columns : List String
  context_length : Nat
  prediction_length : Nat
deriving DecidableEq

/-- The keyword arguments of the from-scratch `PatchTSTConfig(...)` call.
Probabilities (`dropout`, `head_dropout`) are embedded as rationals. -/
structure PatchTSTConfigArgs where
  do_mask_input : Bool
  context_length : Nat
  patch_length : Nat
  num_input_channels : Nat
  patch_stride : Nat
  prediction_length : Nat
  d_model : Nat
  num_attention_heads : Nat
  num_hidden_layers : Nat
  ffn_dim : Nat
  dropout : ℚ
  head_dropout : ℚ
  pooling_type : Option String
  channel_attention : Bool
  scaling : String
  loss : String
  pre_norm : Bool
  norm_type : String
deriving DecidableEq

/-- One top-level library call of the notebook. -/
inductive Stmt
  | torchManualSeed : Nat → Stmt
  | randomSeed : Nat → Stmt
  | npRandomSeed : Nat → Stmt
  | readCsv : String → String → Stmt
  | selectByIndex : Split → Option Nat → Nat → Stmt
  | timeSeriesPreprocessorInit : String → List String → List String → Bool → Stmt
  | tspTrain : DataExpr → Stmt
  | forecastDFDataset : Split → ForecastDFDatasetArgs → Stmt
  | fromPretrained : String → Stmt
  | trainingArguments : String → Stmt
  | trainerInit : Option Split → Option Split → Stmt
  | trainerTrain : Stmt
  | trainerEvaluate : Split → Stmt
  | patchTSTConfig : PatchTSTConfigArgs → Stmt
  | patchTSTForPrediction : Stmt
  | trainerPredict : Split → Stmt
  | inspectPredictionShape : Nat × Nat × Nat → Stmt
deriving DecidableEq

/-- Arguments of the `train_dataset = ForecastDFDataset(...)` cell. -/
def train_dataset_args : ForecastDFDatasetArgs :=
  { input := DataExpr.preprocessed Split.train
    id_columns := id_columns
    target_columns := forecast_columns
    context_length := context_length
    prediction_length := forecast_horizon }

/-- Arguments of the `valid_dataset = ForecastDFDataset(...)` cell. -/
def valid_dataset_args : ForecastDFDatasetArgs :=
  { input := DataExpr.preprocessed Split.valid
    id_columns := id_columns
    target_columns := forecast_columns
    context_length := context_length
    prediction_length := forecast_horizon }

/-- Arguments of the `test_dataset = ForecastDFDataset(...)` cell. -/
def test_dataset_args : ForecastDFDatasetArgs :=
  { input := DataExpr.preprocessed Split.test
    id_columns := id_columns
    target_columns := forecast_columns
    context_length := context_length
    prediction_length := forecast_horizon }

/-- The from-scratch `config = PatchTSTConfig(...)` call of the notebook. -/
def notebookConfig : PatchTSTConfigArgs :=
  { do_mask_input := false
    context_length := context_length
    patch_length := patch_length
    num_input_channels := forecast_columns.length
    patch_stride := patch_length
    prediction_length := forecast_horizon
    d_model := 128
    num_attention_heads := 16
    num_hidden_layers := 3
    ffn_dim := 512
    dropout := 2/10
    head_dropout := 2/10
    pooling_type := none
    channel_attention := false
    scaling := "std"
    loss := "mse"
    pre_norm := true
    norm_type := "batchnorm" }

/-- Shape of `output.predictions[0]` recorded in the notebook's final
output cell. -/
def recordedPredictionsShape : Nat × Nat × Nat := (2785, 96, 7)

/-- The cells shared by both usage paths: seeding, CSV load, the three
`select_by_index` slices, preprocessor fit, and the three
`ForecastDFDataset` constructions. -/
def setupCells : List Stmt :=
  [ Stmt.torchManualSeed 42
  , Stmt.randomSeed 42
  , Stmt.npRandomSeed 42
  , Stmt.readCsv dataset_path timestamp_column
  , Stmt.selectByIndex Split.train train_start_index train_end_index
  , Stmt.selectByIndex Split.valid (some valid_start_index) valid_end_index
  , Stmt.selectByIndex Split.test (some test_start_index) test_end_index
  , Stmt.timeSeriesPreprocessorInit timestamp_column id_columns forecast_columns true
  , Stmt.tspTrain (DataExpr.raw Split.train)
  , Stmt.forecastDFDataset Split.train train_dataset_args
  , Stmt.forecastDFDataset Split.valid valid_dataset_args
  , Stmt.forecastDFDataset Split.test test_dataset_args ]

/-- The pretrained-model cells: load from the hub, build a `Trainer` with
no train/eval datasets, and evaluate on the test dataset. -/
def pretrainedSuffix : List Stmt :=
  [ Stmt.fromPretrained "ibm-granite/granite-timeseries-patchtst"
  , Stmt.trainingArguments "./checkpoint/patchtst/direct/train/output/"
  , Stmt.trainerInit none none
  , Stmt.trainerEvaluate Split.test ]

/-- The from-scratch cells: config, model, training arguments, a `Trainer`
over the train/validation datasets, training, evaluation on test,
prediction on test and the shape inspection. -/
def fromScratchSuffix : List Stmt :=
  [ Stmt.patchTSTConfig notebookConfig
  , Stmt.patchTSTForPrediction
  , Stmt.trainingArguments "./checkpoint/patchtst/direct/train/output/"
  , Stmt.trainerInit (some Split.train) (some Split.valid)
  , Stmt.trainerTrain
  , Stmt.trainerEvaluate Split.test
  , Stmt.trainerPredict Split.test
  , Stmt.inspectPredictionShape recordedPredictionsShape ]

/-- The notebook, cell by cell in execution order. -/
def notebookProgram : List Stmt :=
  setupCells ++ pretrainedSuffix ++ fromScratchSuffix

/-! ### Claim C1: split index arithmetic -/

/-- C1: the computed split indices are train `[0, 8640)`,
validation `[8128, 11520)`, test `[11008, 14400)`; each later split starts
exactly `context_length = 512` rows before the end of the preceding one,
so consecutive splits overlap by exactly 512 rows; and exactly these
values are the arguments of the three `select_by_index` calls. -/
theorem claim1_split_indices :
    train_start_index = none
      ∧ train_end_index = 8640
      ∧ valid_start_index = 8128
      ∧ valid_end_index = 11520
      ∧ test_start_index = 11008
      ∧ test_end_index = 14400
      ∧ valid_start_index = train_end_index - context_length
      ∧ test_start_index = valid_end_index - context_length
      ∧ train_end_index - valid_start_index = context_length
      ∧ valid_end_index - test_start_index = context_length
      ∧ Stmt.selectByIndex Split.train train_start_index train_end_index ∈ notebookProgram
      ∧ Stmt.selectByIndex Split.valid (some valid_start_index) valid_end_index ∈ notebookProgram
      ∧ Stmt.selectByIndex Split.test (some test_start_index) test_end_index ∈ notebookProgram := by
  decide

/-! ### Claim C2: prediction output shape -/

/-- Number of rows of the test slice. -/
def test_slice_len : Nat := test_end_index - test_start_index

/-- Modelled from the spec: `ForecastDFDataset` (from
`tsfm_public.toolkit.dataset`, not present under the represented sources)
windows a series of `n` rows into every window of `context_length`
historical steps followed by `forecast_horizon` future steps, giving
`n - (context_length + forecast_horizon) + 1` forecast windows. -/
def numForecastWindows (n : Nat) : Nat :=
  n - (context_length + forecast_horizon) + 1

/-- C2: the recorded `output.predictions[0].shape` is `(2785, 96, 7)`,
whose first component is the number of forecast windows of the test slice,
`(test_end_index - test_start_index) - (context_length + forecast_horizon) + 1
= 3392 - 608 + 1 = 2785`, the second is `forecast_horizon = 96` and the
third is the number of forecast columns, `7`. -/
theorem claim2_prediction_shape :
    recordedPredictionsShape
        = (numForecastWindows test_slice_len, forecast_horizon, forecast_columns.length)
      ∧ test_slice_len = 3392
      ∧ context_length + forecast_horizon = 608
      ∧ numForecastWindows test_slice_len = 3392 - 608 + 1
      ∧ numForecastWindows test_slice_len = 2785
      ∧ forecast_horizon = 96
      ∧ forecast_columns.length = 7 := by
  decide

/-! ### Claim C3: the preprocessor is fitted before any preprocessing -/

/-- `true` on the statement that fits the preprocessor. -/
def isTspTrain : Stmt → Bool
  | Stmt.tspTrain _ => true
  | _ => false

/-- `true` on a statement one of whose arguments is a `tsp.preprocess`
application. -/
def mentionsPreprocessed : Stmt → Bool
  | Stmt.tspTrain (DataExpr.preprocessed _) => true
  | Stmt.forecastDFDataset _ a =>
      match a.input with
      | DataExpr.preprocessed _ => true
      | DataExpr.raw _ => false
  | _ => false

/-- Position of the `tsp.train` call in the notebook. -/
def tspTrainIdx : Nat := notebookProgram.findIdx isTspTrain

/-- C3: the preprocessor is fitted exactly once, on the raw training slice
only; each of the three `ForecastDFDataset`s is built from
`tsp.preprocess` applied to the raw slice of its own split (so never from
unscaled raw values); and no statement up to and including the fit
mentions a preprocessed dataframe, so preprocessing is never applied
before the fit. -/
theorem claim3_fit_before_preprocess :
    notebookProgram.count (Stmt.tspTrain (DataExpr.raw Split.train)) = 1
      ∧ (notebookProgram.all fun st =>
          match st with
          | Stmt.tspTrain d => decide (d = DataExpr.raw Split.train)
          | _ => true) = true
      ∧ (notebookProgram.all fun st =>
          match st with
          | Stmt.forecastDFDataset s a => decide (a.input = DataExpr.preprocessed s)
          | _ => true) = true
      ∧ ((notebookProgram.take (tspTrainIdx + 1)).all
          fun st => !(mentionsPreprocessed st)) = true
      ∧ tspTrainIdx < notebookProgram.length := by
  decide

/-! ### Claim C4: order of the top-level steps -/

/-- Position of a statement in the step sequence the spec lists: read CSV,
split indices, preprocessor, dataset wrappers, model, training-loop
configuration, train, evaluate, inspect shapes.  Seeding cells belong to
no listed step. -/
def phase : Stmt → Option Nat
  | Stmt.readCsv _ _ => some 0
  | Stmt.selectByIndex _ _ _ => some 1
  | Stmt.timeSeriesPreprocessorInit _ _ _ _ => some 2
  | Stmt.tspTrain _ => some 2
  | Stmt.forecastDFDataset _ _ => some 3
  | Stmt.fromPretrained _ => some 4
  | Stmt.patchTSTConfig _ => some 4
  | Stmt.patchTSTForPrediction => some 4
  | Stmt.trainingArguments _ => some 5
  | Stmt.trainerInit _ _ => some 5
  | Stmt.trainerTrain => some 6
  | Stmt.trainerEvaluate _ => some 7
  | Stmt.trainerPredict _ => some 8
  | Stmt.inspectPredictionShape _ => some 8
  | _ => none

/-- `true` when the list of step numbers never decreases. -/
def nondecreasing : List Nat → Bool
  | [] => true
  | [_] => true
  | a :: b :: rest => decide (a ≤ b) && nondecreasing (b :: rest)

/-- The pretrained-model usage path. -/
def pretrainedPath : List Stmt := setupCells ++ pretrainedSuffix

/-- The from-scratch training path. -/
def fromScratchPath : List Stmt := setupCells ++ fromScratchSuffix

/-- C4: the notebook is the shared preparation cells followed by the
pretrained path's cells and then the from-scratch path's cells; every step
the spec lists occurs (one CSV read, three `select_by_index` calls, one
preprocessor, three datasets, one `from_pretrained` model and one
from-scratch model, training-loop configuration on both paths,
`trainer.train` on the from-scratch path only, evaluation, shape
inspection); and along each path the step numbers are nondecreasing, so no
step precedes one listed before it on the same path. -/
theorem claim4_step_order :
    notebookProgram = setupCells ++ pretrainedSuffix ++ fromScratchSuffix
      ∧ nondecreasing (pretrainedPath.filterMap phase) = true
      ∧ nondecreasing (fromScratchPath.filterMap phase) = true
      ∧ notebookProgram.count (Stmt.readCsv dataset_path timestamp_column) = 1
      ∧ (notebookProgram.countP fun st =>
          match st with
          | Stmt.selectByIndex _ _ _ => true
          | _ => false) = 3
      ∧ (notebookProgram.countP fun st =>
          match st with
          | Stmt.forecastDFDataset _ _ => true
          | _ => false) = 3
      ∧ notebookProgram.count (Stmt.fromPretrained "ibm-granite/granite-timeseries-patchtst") = 1
      ∧ notebookProgram.count Stmt.patchTSTForPrediction = 1
      ∧ fromScratchPath.count Stmt.trainerTrain = 1
      ∧ pretrainedPath.count Stmt.trainerTrain = 0
      ∧ notebookProgram.count (Stmt.trainerEvaluate Split.test) = 2
      ∧ fromScratchPath.count (Stmt.inspectPredictionShape recordedPredictionsShape) = 1 := by
  exact ⟨rfl, by decide⟩

/-! ### Claim C5: patch arithmetic at the chosen parameters -/

/-- Modelled from the spec: a patch is "a contiguous sub-sequence of the
input window"; `PatchTST` (external `transformers` library) extracts patch
`i` as the `patch_length` consecutive steps starting at offset
`i * patch_stride` of the context window, and the number of patches is
`(context_length - patch_length) / patch_stride + 1`.  Whether context
step `t` belongs to patch `i`. -/
def inPatch (i t : Nat) : Bool :=
  decide (i * patch_stride ≤ t) && decide (t < i * patch_stride + patch_length)

/-- Number of patches extracted from one context window. -/
def num_patches : Nat := (context_length - patch_length) / patch_stride + 1

/-- C5: with `context_length = 512`, `patch_length = 12` and
`patch_stride = patch_length = 12`, there are
`(512 - 12) / 12 + 1 = 42` patches; every patch lies inside the 512-step
window; patches at distinct indices are disjoint; together they cover
`42 * 12 = 504` steps; and since `512 mod 12 = 8` is nonzero, the final 8
steps (504 through 511) of every context window belong to no patch. -/
theorem claim5_patch_arithmetic :
    num_patches = (context_length - patch_length) / patch_stride + 1
      ∧ num_patches = 42
      ∧ (∀ i : Nat, i < num_patches → i * patch_stride + patch_length ≤ context_length)
      ∧ (∀ i j t : Nat, i ≠ j → ¬(inPatch i t = true ∧ inPatch j t = true))
      ∧ num_patches * patch_length = 504
      ∧ context_length % patch_length = 8
      ∧ (∀ t : Nat, num_patches * patch_length ≤ t →
          ∀ i : Nat, i < num_patches → inPatch i t = false) := by
  refine ⟨rfl, by decide, ?_, ?_, by decide, by decide, ?_⟩
  · intro i hi
    simp only [num_patches, context_length, patch_length, patch_stride] at hi ⊢
    omega
  · intro i j t hne h
    simp only [inPatch, patch_stride, patch_length, Bool.and_eq_true, decide_eq_true_eq] at h
    omega
  · intro t ht i hi
    simp only [num_patches, context_length, patch_length, patch_stride] at ht hi
    by_contra hcontra
    rw [Bool.not_eq_false] at hcontra
    simp only [inPatch, patch_stride, patch_length, Bool.and_eq_true, decide_eq_true_eq] at hcontra
    omega

/-- Witness for C5: patch 0 fits in the window, patches 0 and 1 are
disjoint at step 5, and step 504 (the first uncovered step) is outside
patch 41. -/
theorem claim5_patch_arithmetic_witness :
    (0 * patch_stride + patch_length ≤ context_length)
      ∧ ¬(inPatch 0 5 = true ∧ inPatch 1 5 = true)
      ∧ inPatch 41 504 = false :=
  ⟨claim5_patch_arithmetic.2.2.1 0 (by decide),
   claim5_patch_arithmetic.2.2.2.1 0 1 5 (by decide),
   claim5_patch_arithmetic.2.2.2.2.2.2 504 (by decide) 41 (by decide)⟩

/-! ### Claim C6: the datasets and the config agree on windowing -/

/-- C6: the three `ForecastDFDataset` constructions all use
`context_length = 512`, `prediction_length = forecast_horizon = 96`, the
same 7 target columns and the same empty `id_columns`, and the
from-scratch `PatchTSTConfig` uses the same context length and prediction
length with `num_input_channels` equal to the number of forecast
columns. -/
theorem claim6_windowing_agreement :
    ([train_dataset_args, valid_dataset_args, test_dataset_args].all fun a =>
        decide (a.context_length = context_length)
          && decide (a.prediction_length = forecast_horizon)
          && decide (a.target_columns = forecast_columns)
          && decide (a.id_columns = ([] : List String))) = true
      ∧ notebookConfig.context_length = context_length
      ∧ notebookConfig.prediction_length = forecast_horizon
      ∧ notebookConfig.num_input_channels = forecast_columns.length
      ∧ context_length = 512
      ∧ forecast_horizon = 96
      ∧ forecast_columns.length = 7
      ∧ id_columns = [] := by
  decide

/-! ### Claim C7: the framework classes are imported, never defined here -/

/-- One `from module import name` item of the notebook's import cell. -/
structure ImportItem where
  module : String
  name : String
deriving DecidableEq

/-- The plain module imports of the notebook's import cell. -/
def moduleImports : List String := ["random", "numpy", "pandas", "torch"]

/-- The `from ... import ...` items of the notebook's import cell. -/
def fromImports : List ImportItem :=
  [ ⟨"transformers", "EarlyStoppingCallback"⟩
  , ⟨"transformers", "PatchTSTConfig"⟩
  , ⟨"transformers", "PatchTSTForPrediction"⟩
  , ⟨"transformers", "Trainer"⟩
  , ⟨"transformers", "TrainingArguments"⟩
  , ⟨"tsfm_public.toolkit.dataset", "ForecastDFDataset"⟩
  , ⟨"tsfm_public.toolkit.time_series_preprocessor", "TimeSeriesPreprocessor"⟩
  , ⟨"tsfm_public.toolkit.util", "select_by_index"⟩ ]

/-- The modules the notebook imports framework symbols from: all are
`transformers` or `tsfm_public` submodules. -/
def externalModules : List String :=
  [ "transformers"
  , "tsfm_public.toolkit.dataset"
  , "tsfm_public.toolkit.time_series_preprocessor"
  , "tsfm_public.toolkit.util" ]

/-- The four framework classes the claim is about. -/
def frameworkClasses : List String :=
  ["TimeSeriesPreprocessor", "ForecastDFDataset", "PatchTSTForPrediction", "Trainer"]

/-- Every name the notebook's cells bind by assignment, cell by cell. -/
def notebookAssignedNames : List String :=
  [ "SEED", "dataset", "num_workers", "batch_size", "context_length"
  , "forecast_horizon", "patch_length", "dataset_path", "timestamp_column"
  , "id_columns", "forecast_columns", "train_start_index", "train_end_index"
  , "valid_start_index", "valid_end_index", "test_start_index"
  , "test_end_index", "data", "train_data", "valid_data", "test_data"
  , "tsp", "train_dataset", "valid_dataset", "test_dataset"
  , "inference_forecast_model", "train_args", "inference_forecast_trainer"
  , "result", "config", "model", "early_stopping_callback", "trainer"
  , "output" ]

/-- The `class` and `def` statements of the notebook: there are none. -/
def notebookClassAndFunctionDefs : List String := []

/-- C7: each of `TimeSeriesPreprocessor`, `ForecastDFDataset`,
`PatchTSTForPrediction` and `Trainer` is imported from `transformers` or a
`tsfm_public` module, none of them is a name the notebook binds, and the
notebook (the repository's only source file) contains no class or function
definition at all — so the repository implements none of preprocessing,
windowing, the model architecture, or the training loop. -/
theorem claim7_framework_external :
    (frameworkClasses.all fun n =>
        fromImports.any fun imp =>
          decide (imp.name = n) && decide (imp.module ∈ externalModules)) = true
      ∧ (frameworkClasses.all fun n =>
          !(notebookAssignedNames.contains n)) = true
      ∧ (fromImports.all fun imp => decide (imp.module ∈ externalModules)) = true
      ∧ notebookClassAndFunctionDefs = [] := by
  decide

/-! ### Claim C8: seeding precedes everything, with one constant seed -/

/-- The seed constant of the notebook. -/
def SEED : Nat := 42

/-- The state of the three pseudo-random sources the notebook seeds
(`torch`, `random`, `numpy`); `none` is an unseeded source. -/
structure RngState where
  torch : Option Nat
  random : Option Nat
  numpy : Option Nat
deriving DecidableEq

/-- Effect of one notebook statement on the pseudo-random state: only the
three seeding calls touch it. -/
def applySeedStmt (st : RngState) : Stmt → RngState
  | Stmt.torchManualSeed n => { st with torch := some n }
  | Stmt.randomSeed n => { st with random := some n }
  | Stmt.npRandomSeed n => { st with numpy := some n }
  | _ => st

/-- Pseudo-random state after running a list of statements from `st`. -/
def runSeeds (p : List Stmt) (st : RngState) : RngState :=
  p.foldl applySeedStmt st

/-- `true` on statements that load data, build a dataset, or instantiate a
model. -/
def loadsDataOrBuildsModel : Stmt → Bool
  | Stmt.readCsv _ _ => true
  | Stmt.selectByIndex _ _ _ => true
  | Stmt.forecastDFDataset _ _ => true
  | Stmt.fromPretrained _ => true
  | Stmt.patchTSTForPrediction => true
  | _ => false

/-- C8: the notebook's first three statements seed `torch`, `random` and
`numpy`, all with the constant `SEED = 42`; every statement that loads
data, builds a dataset or instantiates a model comes strictly after them;
and the pseudo-random state after the seeding prefix is the same whatever
state the run started from, so two runs start from identical
pseudo-random state. -/
theorem claim8_seeding :
    notebookProgram.take 3
        = [Stmt.torchManualSeed SEED, Stmt.randomSeed SEED, Stmt.npRandomSeed SEED]
      ∧ ((notebookProgram.take 3).all fun st => !(loadsDataOrBuildsModel st)) = true
      ∧ ((notebookProgram.drop 3).countP fun st =>
          match st with
          | Stmt.torchManualSeed _ => true
          | Stmt.randomSeed _ => true
          | Stmt.npRandomSeed _ => true
          | _ => false) = 0
      ∧ ∀ s1 s2 : RngState,
          runSeeds (notebookProgram.take 3) s1 = runSeeds (notebookProgram.take 3) s2 :=
  ⟨rfl, by decide, by decide, fun s1 s2 => rfl⟩

/-- Witness for C8: two runs starting from an unseeded state and from a
differently-seeded state end the seeding prefix in the same state. -/
theorem claim8_seeding_witness :
    runSeeds (notebookProgram.take 3) ⟨none, none, none⟩
      = runSeeds (notebookProgram.take 3) ⟨some 7, some 8, some 9⟩ :=
  claim8_seeding.2.2.2 ⟨none, none, none⟩ ⟨some 7, some 8, some 9⟩

/-! ### Claim C9: what the scaler is fitted on

The notebook's recorded `tsp.train` output shows the fitted scaler's
metadata. -/

/-- `n_samples_seen_` recorded in the notebook's `tsp.train` output. -/
def recorded_n_samples_seen : Nat := 8640

/-- `n_features_in_` recorded in the notebook's `tsp.train` output. -/
def recorded_n_features_in : Nat := 7

/-- Modelled from the spec: the preprocessor is "a fitted transform (e.g.,
per-channel standardization)"; `tsp.train` (from
`tsfm_public.toolkit.time_series_preprocessor`, not present under the
represented sources) fits the scaler on exactly the rows of its argument,
here `train_data`, the training slice.  Row `i` contributes to the fitted
statistics. -/
def FittedOnRow (i : Nat) : Prop := InTrainSlice i

instance (i : Nat) : Decidable (FittedOnRow i) :=
  inferInstanceAs (Decidable (InTrainSlice i))

/-- Counterexample to C9 as stated: row 8128 contributes to the fitted
statistics (it is in the training slice `[0, 8640)`) and it is a
validation row (the validation slice is `[8128, 11520)`), so the
statistics are not computed "from no validation row". -/
theorem claim9_counterexample :
    FittedOnRow 8128 ∧ InValidSlice 8128
      ∧ Stmt.tspTrain (DataExpr.raw Split.train) ∈ notebookProgram := by
  refine ⟨?_, ?_, ?_⟩ <;> decide

/-- C9 (amended): the recorded `n_samples_seen_ = 8640` equals
`train_end_index = 12 * 30 * 24` and the recorded `n_features_in_ = 7`
equals the number of forecast columns; the scaler is fitted exactly once,
on the raw training slice only; no row at index `≥ train_end_index` (the
held-out region) and in particular no test row contributes, since the test
slice starts at `11008 ≥ 8640`; the validation slice, however, overlaps
the fitted rows by exactly `context_length = 512` rows by construction. -/
theorem claim9_fit_statistics :
    recorded_n_samples_seen = train_end_index
      ∧ train_end_index = 12 * 30 * 24
      ∧ recorded_n_features_in = forecast_columns.length
      ∧ notebookProgram.count (Stmt.tspTrain (DataExpr.raw Split.train)) = 1
      ∧ (notebookProgram.all fun st =>
          match st with
          | Stmt.tspTrain d => decide (d = DataExpr.raw Split.train)
          | _ => true) = true
      ∧ (∀ i : Nat, FittedOnRow i → i < train_end_index)
      ∧ train_end_index ≤ test_start_index
      ∧ (∀ i : Nat, FittedOnRow i → ¬ InTestSlice i)
      ∧ train_end_index - valid_start_index = context_length := by
  refine ⟨by decide, by decide, by decide, by decide, by decide, ?_, by decide, ?_, by decide⟩
  · intro i hi
    exact hi.2
  · intro i hi hc
    have h1 : i < train_end_index := hi.2
    have h2 : test_start_index ≤ i := hc.1
    simp only [train_end_index, test_start_index, context_length] at h1 h2
    omega

/-- Witness for C9 (amended): row 0 is fitted on, lies before
`train_end_index`, and is not a test row. -/
theorem claim9_fit_statistics_witness :
    FittedOnRow 0 ∧ 0 < train_end_index ∧ ¬ InTestSlice 0 :=
  ⟨by decide,
   claim9_fit_statistics.2.2.2.2.2.1 0 (by decide),
   claim9_fit_statistics.2.2.2.2.2.2.2.1 0 (by decide)⟩

end PatchTSTDemo
